import Mathlib

/-!
Verification of the Odoo MCP server core (RPC client, operation dispatcher,
HTTP health surface) against its natural-language specification.

The Python sources are shallowly embedded:
- `src/odoo_mcp_server/odoo_client.py` → `OdooClient` and its methods;
- `src/odoo_mcp_server/main.py`       → `ServerState.handle*` and `handleCallTool`;
- `src/odoo_mcp_server/http_server.py` → `httpConnect`, `healthEndpoint`, `rootEndpoint`.

Remote I/O is modelled by oracles: `AuthOutcome` is what the remote
`authenticate` call produces (a value, or a transport failure), and
`Respond : RemoteCall → Except String Value` is what the remote `execute_kw`
endpoint answers for a given call.  Every client method additionally returns
the list of network events it performed, so "zero remote I/O" claims are the
statement that this list is empty.
-/

namespace OdooMCP

/-- A Python/JSON value as it flows through the server.  `vNull` is Python
`None`, `vDict` keeps insertion order as Python dicts do. -/
inductive Value where
  | vNull : Value
  | vBool : Bool → Value
  | vInt : Int → Value
  | vStr : String → Value
  | vList : List Value → Value
  | vDict : List (String × Value) → Value

/-- Python truthiness (`bool(v)`): `None`, `False`, `0`, `""`, `[]`, `{}` are
falsy, everything else truthy. -/
def Value.truthy : Value → Bool
  | .vNull => false
  | .vBool b => b
  | .vInt n => n != 0
  | .vStr s => !s.isEmpty
  | .vList xs => !xs.isEmpty
  | .vDict m => !m.isEmpty

/-- Python `a or b`: `a` if truthy, else `b`. -/
def pyOr (a b : Value) : Value := if a.truthy then a else b

/-- `v is None` (identity with `None`). -/
def Value.isNull : Value → Bool
  | .vNull => true
  | _ => false

/-- Python `str(v)` for the scalar values that actually appear in the
server's messages.  The rendering of nested containers is abbreviated; no
verified property depends on message text built from container values. -/
def Value.pyStr : Value → String
  | .vNull => "None"
  | .vBool true => "True"
  | .vBool false => "False"
  | .vInt n => toString n
  | .vStr s => s
  | .vList _ => "[...]"
  | .vDict _ => "\x7b...\x7d"

/-- Python `len(v)`: defined on strings, lists and dicts; raises `TypeError`
otherwise. -/
def Value.pyLen : Value → Except String Nat
  | .vStr s => .ok s.length
  | .vList xs => .ok xs.length
  | .vDict m => .ok m.length
  | _ => .error "object has no len()"

/-- Python `v[k]` on a dict: the stored binding (Python dict keys are unique,
so the first binding is the binding), `KeyError` when absent, `TypeError`
when `v` is not a dict. -/
def Value.dictGet (v : Value) (k : String) : Except String Value :=
  match v with
  | .vDict m =>
      match m.find? (fun kv => kv.1 == k) with
      | some kv => .ok kv.2
      | none => .error ("\x27" ++ k ++ "\x27")
  | _ => .error "value is not subscriptable"

/-- Coerce to a Python `str`; any other value raises (as Python does when a
string method such as `.lower()` is invoked on it). -/
def Value.asStr : Value → Except String String
  | .vStr s => .ok s
  | _ => .error "value is not a string"

/-- Coerce to a Python sequence for `for`-iteration; any non-list raises.
(Remote results that are not lists would fail Python iteration as well,
possibly with a different message; no claim depends on that message.) -/
def Value.asList : Value → Except String (List Value)
  | .vList xs => .ok xs
  | _ => .error "value is not iterable"

/-- `pat` occurs as a contiguous substring of `hay` (Python `pat in hay`). -/
def charsContain (pat : List Char) : List Char → Bool
  | [] => pat.isEmpty
  | c :: rest => pat.isPrefixOf (c :: rest) || charsContain pat rest

/-- Case-insensitive substring: `pat.lower() in hay.lower()`, with `.lower()`
modelled as the character-wise lowercase map over the string's characters. -/
def strContainsCI (hay pat : String) : Bool :=
  charsContain (pat.data.map Char.toLower) (hay.data.map Char.toLower)

/-- `url.rstrip(\x27/\x27)` from `OdooClient.__init__` (odoo_client.py line 14):
removes trailing slash characters of a string; the server only ever builds
clients from string URLs, so other values are left as they are. -/
def dropTrailingSlashes (l : List Char) : List Char :=
  (l.reverse.dropWhile (fun c => c = '/')).reverse

def Value.rstripSlash : Value → Value
  | .vStr s => .vStr (String.mk (dropTrailingSlashes s.toList))
  | v => v

/-! ## The RPC client (`odoo_client.py`) -/

/-- The `execute_kw` call a client method issues: the exact arguments of
`self.models.execute_kw(self.database, self.uid, self.password, model,
method, args, kwargs)`.  `kwargs = none` models a Python call that passes
no keyword-argument dictionary at all (e.g. `create`), as opposed to
passing an explicit dict. -/
structure RemoteCall where
  database : Value
  uid : Value
  password : Value
  model : Value
  method : Value
  args : Value
  kwargs : Option Value

/-- A network event performed by the client: the initial `authenticate`
round trip of `connect` (which also passes a constant empty context dict,
not recorded here), or an `execute_kw` round trip. -/
inductive NetEvent where
  | authenticate (database username password : Value)
  | executeKw (call : RemoteCall)

/-- Oracle for the remote `authenticate` endpoint: the value it returns
(an integer user id, or `False` for bad credentials), or a transport
failure (DNS, TLS, timeout) raised as an exception with a message. -/
inductive AuthOutcome where
  | ok (v : Value)
  | netfail (msg : String)

/-- Oracle for the remote `execute_kw` endpoint: the value returned for a
given call, or a remote-side fault raised as an exception. -/
def Respond := RemoteCall → Except String Value

/-- `OdooClient` state (odoo_client.py lines 13-21): connection parameters
plus `self.uid`, initially `None` and assigned by `connect`.  The
`ServerProxy` objects built in `__init__`/`connect` perform no network I/O
at construction and are not modelled. -/
structure OdooClient where
  url : Value
  database : Value
  username : Value
  password : Value
  uid : Value

/-- `OdooClient.__init__` (lines 13-21): strips trailing slashes from the
URL and starts with `uid = None`. -/
def mkOdooClient (url database username password : Value) : OdooClient :=
  { url := url.rstripSlash, database := database, username := username,
    password := password, uid := .vNull }

/-- `OdooClient.connect` (lines 30-51): authenticates; assigns `self.uid`
the returned value (the assignment happens before the truthiness check, so
a falsy identity is still stored); raises "Authentication failed" when the
identity is falsy; re-raises a transport exception unchanged (in which case
`self.uid` is not assigned).  Returns the client after the call, the raised
exception message if any, and the network events performed. -/
def OdooClient.connect (c : OdooClient) (auth : AuthOutcome) :
    OdooClient × Option String × List NetEvent :=
  match auth with
  | .netfail msg => (c, some msg, [.authenticate c.database c.username c.password])
  | .ok v =>
      let c' := { c with uid := v }
      if v.truthy then (c', none, [.authenticate c.database c.username c.password])
      else (c', some "Authentication failed",
            [.authenticate c.database c.username c.password])

/-- `OdooClient.search_read` (lines 53-73): guard on `self.uid`, defaults
`domain = domain or []`, `fields = fields or []`, `limit` defaulting to
`100` when omitted, then one `execute_kw(db, uid, password, model,
\x27search_read\x27, [domain], \x7b\x27fields\x27: fields, \x27limit\x27: limit\x7d)`;
the remote value (or remote fault) is passed back unchanged. -/
def OdooClient.search_read (c : OdooClient) (model : Value)
    (domain fields limit : Option Value) (respond : Respond) :
    Except String Value × List NetEvent :=
  if c.uid.truthy = false then (.error "Not authenticated", [])
  else
    let domain := pyOr (domain.getD .vNull) (.vList [])
    let fields := pyOr (fields.getD .vNull) (.vList [])
    let limit := limit.getD (.vInt 100)
    let call : RemoteCall :=
      { database := c.database, uid := c.uid, password := c.password,
        model := model, method := .vStr "search_read",
        args := .vList [domain],
        kwargs := some (.vDict [("fields", fields), ("limit", limit)]) }
    (respond call, [.executeKw call])

/-- `OdooClient.create` (lines 75-91): guard, then
`execute_kw(..., model, \x27create\x27, [values])` with no kwargs dict. -/
def OdooClient.create (c : OdooClient) (model values : Value) (respond : Respond) :
    Except String Value × List NetEvent :=
  if c.uid.truthy = false then (.error "Not authenticated", [])
  else
    let call : RemoteCall :=
      { database := c.database, uid := c.uid, password := c.password,
        model := model, method := .vStr "create",
        args := .vList [values], kwargs := none }
    (respond call, [.executeKw call])

/-- `OdooClient.write` (lines 93-109): guard, then
`execute_kw(..., model, \x27write\x27, [ids, values])`. -/
def OdooClient.write (c : OdooClient) (model ids values : Value) (respond : Respond) :
    Except String Value × List NetEvent :=
  if c.uid.truthy = false then (.error "Not authenticated", [])
  else
    let call : RemoteCall :=
      { database := c.database, uid := c.uid, password := c.password,
        model := model, method := .vStr "write",
        args := .vList [ids, values], kwargs := none }
    (respond call, [.executeKw call])

/-- `OdooClient.unlink` (lines 111-127): guard, then
`execute_kw(..., model, \x27unlink\x27, [ids])`. -/
def OdooClient.unlink (c : OdooClient) (model ids : Value) (respond : Respond) :
    Except String Value × List NetEvent :=
  if c.uid.truthy = false then (.error "Not authenticated", [])
  else
    let call : RemoteCall :=
      { database := c.database, uid := c.uid, password := c.password,
        model := model, method := .vStr "unlink",
        args := .vList [ids], kwargs := none }
    (respond call, [.executeKw call])

/-- `OdooClient.call_method` (lines 129-148): guard, `args = args or []`,
`kwargs = kwargs or \x7b\x7d`, then `execute_kw(..., model, method, args,
kwargs)` — the user-supplied args/kwargs are passed through as-is. -/
def OdooClient.call_method (c : OdooClient) (model method : Value)
    (args kwargs : Option Value) (respond : Respond) :
    Except String Value × List NetEvent :=
  if c.uid.truthy = false then (.error "Not authenticated", [])
  else
    let args := pyOr (args.getD .vNull) (.vList [])
    let kwargs := pyOr (kwargs.getD .vNull) (.vDict [])
    let call : RemoteCall :=
      { database := c.database, uid := c.uid, password := c.password,
        model := model, method := method,
        args := args, kwargs := some kwargs }
    (respond call, [.executeKw call])

/-- One step of the list comprehension of `get_models` (line 210):
`[m for m in models if filter_pattern.lower() in m[\x27model\x27].lower()]`,
evaluating, per element and in Python order, `filter_pattern.lower()`,
`m[\x27model\x27]`, and `.lower()` on the latter, raising at the first
element where any of those fails. -/
def filterByModel (filter_pattern : Value) : List Value → Except String (List Value)
  | [] => .ok []
  | m :: rest =>
      match filter_pattern.asStr with
      | .error e => .error e
      | .ok pat =>
          match m.dictGet "model" with
          | .error e => .error e
          | .ok v =>
              match v.asStr with
              | .error e => .error e
              | .ok s =>
                  match filterByModel filter_pattern rest with
                  | .error e => .error e
                  | .ok rest' =>
                      .ok (if strContainsCI s pat then m :: rest' else rest')

/-- `OdooClient.get_models` (lines 192-215): guard, one
`execute_kw(..., \x27ir.model\x27, \x27search_read\x27, [[]],
\x7b\x27fields\x27: [\x27model\x27, \x27name\x27, \x27info\x27]\x7d)`, then —
only when `filter_pattern` is truthy — the case-insensitive name filter. -/
def OdooClient.get_models (c : OdooClient) (filter_pattern : Value)
    (respond : Respond) : Except String Value × List NetEvent :=
  if c.uid.truthy = false then (.error "Not authenticated", [])
  else
    let call : RemoteCall :=
      { database := c.database, uid := c.uid, password := c.password,
        model := .vStr "ir.model", method := .vStr "search_read",
        args := .vList [.vList []],
        kwargs := some (.vDict
          [("fields", .vList [.vStr "model", .vStr "name", .vStr "info"])]) }
    match respond call with
    | .error e => (.error e, [.executeKw call])
    | .ok v =>
        if filter_pattern.truthy then
          match v.asList with
          | .error e => (.error e, [.executeKw call])
          | .ok entries =>
              match filterByModel filter_pattern entries with
              | .error e => (.error e, [.executeKw call])
              | .ok kept => (.ok (.vList kept), [.executeKw call])
        else (.ok v, [.executeKw call])

/-- `OdooClient.get_fields` (lines 217-234): guard, then
`execute_kw(..., model, \x27fields_get\x27, [], \x7b\x7d)`. -/
def OdooClient.get_fields (c : OdooClient) (model : Value) (respond : Respond) :
    Except String Value × List NetEvent :=
  if c.uid.truthy = false then (.error "Not authenticated", [])
  else
    let call : RemoteCall :=
      { database := c.database, uid := c.uid, password := c.password,
        model := model, method := .vStr "fields_get",
        args := .vList [], kwargs := some (.vDict []) }
    (respond call, [.executeKw call])

/-- `OdooClient.count` (lines 236-254): guard, `domain = domain or []`,
then `execute_kw(..., model, \x27search_count\x27, [domain])`. -/
def OdooClient.count (c : OdooClient) (model : Value) (domain : Option Value)
    (respond : Respond) : Except String Value × List NetEvent :=
  if c.uid.truthy = false then (.error "Not authenticated", [])
  else
    let domain := pyOr (domain.getD .vNull) (.vList [])
    let call : RemoteCall :=
      { database := c.database, uid := c.uid, password := c.password,
        model := model, method := .vStr "search_count",
        args := .vList [domain], kwargs := none }
    (respond call, [.executeKw call])

/-- `OdooClient.read_group` (lines 256-297): guard, `or []` defaults for
`domain`, `fields`, `groupby`; Python-signature defaults `limit = 100`,
`orderby = None`, `lazy = True`; then
`execute_kw(..., model, \x27read_group\x27, [domain, fields, groupby],
\x7bk: v for k, v in \x7b\x27limit\x27: limit, \x27orderby\x27: orderby,
\x27lazy\x27: lazy\x7d.items() if v is not None\x7d)`. -/
def OdooClient.read_group (c : OdooClient) (model : Value)
    (domain fields groupby limit orderby lazy : Option Value)
    (respond : Respond) : Except String Value × List NetEvent :=
  if c.uid.truthy = false then (.error "Not authenticated", [])
  else
    let domain := pyOr (domain.getD .vNull) (.vList [])
    let fields := pyOr (fields.getD .vNull) (.vList [])
    let groupby := pyOr (groupby.getD .vNull) (.vList [])
    let limit := limit.getD (.vInt 100)
    let orderby := orderby.getD .vNull
    let lazy := lazy.getD (.vBool true)
    let call : RemoteCall :=
      { database := c.database, uid := c.uid, password := c.password,
        model := model, method := .vStr "read_group",
        args := .vList [domain, fields, groupby],
        kwargs := some (.vDict
          (([("limit", limit), ("orderby", orderby), ("lazy", lazy)]).filter
            (fun kv => !kv.2.isNull))) }
    (respond call, [.executeKw call])

/-! ## The tool dispatcher (`main.py`) -/

/-- The `arguments` dict an MCP tool call carries (string keys, JSON
values; keys unique). -/
def Args := List (String × Value)

/-- Python `args.get(k)`. -/
def argsGet (args : Args) (k : String) : Option Value :=
  match List.find? (fun kv => kv.1 == k) args with
  | some kv => some kv.2
  | none => none

/-- Python `args.get(k, d)`. -/
def argsGetD (args : Args) (k : String) (d : Value) : Value :=
  (argsGet args k).getD d

/-- Python `args[k]`: `KeyError(k)` when absent (whose `str()` is the quoted
key). -/
def argsIndex (args : Args) (k : String) : Except String Value :=
  match argsGet args k with
  | some v => .ok v
  | none => .error ("\x27" ++ k ++ "\x27")

/-- The process environment variables consulted by `_handle_connect`
(`os.getenv` yields the string value, or `None` when unset). -/
structure Env where
  odoo_url : Value
  odoo_database : Value
  odoo_username : Value
  odoo_password : Value

/-- The `OdooMCPServer` instance state (main.py lines 27-30): the
process-wide client (`None` until a connect attempt constructs one) and the
parameters stored by the last successful connect. -/
structure ServerState where
  odoo_client : Option OdooClient
  connection_params : Option (List (String × Value))

def notConnectedMsg : String := "Not connected to Odoo. Use odoo_connect first."

def missingParamsMsg : String :=
  "Missing connection parameters. Provide url, database, username, password or set environment variables."

/-- `_handle_connect` (main.py lines 244-275).  Note the order that decides
the state-change behaviour: `self.odoo_client = OdooClient(...)` is
executed *before* `await self.odoo_client.connect()`, so when the remote
authentication fails the freshly constructed (unauthenticated) client has
already replaced the previous one; `self.connection_params` is only
assigned after a successful `connect`. -/
def ServerState.handleConnect (s : ServerState) (env : Env) (args : Args)
    (auth : AuthOutcome) : ServerState × List String × List NetEvent :=
  let url := pyOr (argsGetD args "url" .vNull) env.odoo_url
  let database := pyOr (argsGetD args "database" .vNull) env.odoo_database
  let username := pyOr (argsGetD args "username" .vNull) env.odoo_username
  let password := pyOr (argsGetD args "password" .vNull) env.odoo_password
  if !(url.truthy && database.truthy && username.truthy && password.truthy) then
    (s, [missingParamsMsg], [])
  else
    let c0 := mkOdooClient url database username password
    match c0.connect auth with
    | (c1, none, evs) =>
        ({ odoo_client := some c1,
           connection_params := some
             [("url", url), ("database", database),
              ("username", username), ("password", password)] },
         ["Successfully connected to Odoo at " ++ url.pyStr
            ++ " (database: " ++ database.pyStr ++ ")"], evs)
    | (c1, some msg, evs) =>
        ({ s with odoo_client := some c1 },
         ["Connection failed: " ++ msg], evs)

/-- `_handle_search` (main.py lines 277-291): `None`-client guard, then
`search_read` with `args[\x22model\x22]` and defaulted optional arguments,
returning `Found \x7bn\x7d records: ...` or the caught failure message. -/
def ServerState.handleSearch (s : ServerState) (args : Args) (respond : Respond) :
    List String × List NetEvent :=
  match s.odoo_client with
  | none => ([notConnectedMsg], [])
  | some c =>
      match argsIndex args "model" with
      | .error e => (["Search failed: " ++ e], [])
      | .ok model =>
          match c.search_read model
              (some (argsGetD args "domain" (.vList [])))
              (some (argsGetD args "fields" (.vList [])))
              (some (argsGetD args "limit" (.vInt 100))) respond with
          | (.error e, evs) => (["Search failed: " ++ e], evs)
          | (.ok v, evs) =>
              match v.pyLen with
              | .error e => (["Search failed: " ++ e], evs)
              | .ok n =>
                  (["Found " ++ toString n ++ " records: " ++ v.pyStr], evs)

/-- `_handle_create` (main.py lines 293-305). -/
def ServerState.handleCreate (s : ServerState) (args : Args) (respond : Respond) :
    List String × List NetEvent :=
  match s.odoo_client with
  | none => ([notConnectedMsg], [])
  | some c =>
      match argsIndex args "model" with
      | .error e => (["Create failed: " ++ e], [])
      | .ok model =>
          match argsIndex args "values" with
          | .error e => (["Create failed: " ++ e], [])
          | .ok values =>
              match c.create model values respond with
              | (.error e, evs) => (["Create failed: " ++ e], evs)
              | (.ok v, evs) =>
                  (["Created record with ID: " ++ v.pyStr], evs)

/-- `_handle_write` (main.py lines 307-320): on success the reply counts
`len(args[\x22ids\x22])`, which itself raises (and is caught) when `ids` is
not a sized value. -/
def ServerState.handleWrite (s : ServerState) (args : Args) (respond : Respond) :
    List String × List NetEvent :=
  match s.odoo_client with
  | none => ([notConnectedMsg], [])
  | some c =>
      match argsIndex args "model" with
      | .error e => (["Update failed: " ++ e], [])
      | .ok model =>
          match argsIndex args "ids" with
          | .error e => (["Update failed: " ++ e], [])
          | .ok ids =>
              match argsIndex args "values" with
              | .error e => (["Update failed: " ++ e], [])
              | .ok values =>
                  match c.write model ids values respond with
                  | (.error e, evs) => (["Update failed: " ++ e], evs)
                  | (.ok v, evs) =>
                      match ids.pyLen with
                      | .error e => (["Update failed: " ++ e], evs)
                      | .ok n =>
                          (["Updated " ++ toString n ++ " records: " ++ v.pyStr],
                           evs)

/-- `_handle_unlink` (main.py lines 322-334). -/
def ServerState.handleUnlink (s : ServerState) (args : Args) (respond : Respond) :
    List String × List NetEvent :=
  match s.odoo_client with
  | none => ([notConnectedMsg], [])
  | some c =>
      match argsIndex args "model" with
      | .error e => (["Delete failed: " ++ e], [])
      | .ok model =>
          match argsIndex args "ids" with
          | .error e => (["Delete failed: " ++ e], [])
          | .ok ids =>
              match c.unlink model ids respond with
              | (.error e, evs) => (["Delete failed: " ++ e], evs)
              | (.ok v, evs) =>
                  match ids.pyLen with
                  | .error e => (["Delete failed: " ++ e], evs)
                  | .ok n =>
                      (["Deleted " ++ toString n ++ " records: " ++ v.pyStr],
                       evs)

/-- `_handle_call` (main.py lines 336-350). -/
def ServerState.handleCall (s : ServerState) (args : Args) (respond : Respond) :
    List String × List NetEvent :=
  match s.odoo_client with
  | none => ([notConnectedMsg], [])
  | some c =>
      match argsIndex args "model" with
      | .error e => (["Method call failed: " ++ e], [])
      | .ok model =>
          match argsIndex args "method" with
          | .error e => (["Method call failed: " ++ e], [])
          | .ok method =>
              match c.call_method model method
                  (some (argsGetD args "args" (.vList [])))
                  (some (argsGetD args "kwargs" (.vDict []))) respond with
              | (.error e, evs) => (["Method call failed: " ++ e], evs)
              | (.ok v, evs) => (["Method result: " ++ v.pyStr], evs)

/-- `_handle_get_models` (main.py lines 352-361): passes `args.get("filter")`
(`None` when absent); the success reply serializes the result
(`json.dumps`, rendered through `Value.pyStr` here). -/
def ServerState.handleGetModels (s : ServerState) (args : Args) (respond : Respond) :
    List String × List NetEvent :=
  match s.odoo_client with
  | none => ([notConnectedMsg], [])
  | some c =>
      match c.get_models (argsGetD args "filter" .vNull) respond with
      | (.error e, evs) => (["Get models failed: " ++ e], evs)
      | (.ok v, evs) => (["Available models: " ++ v.pyStr], evs)

/-- `_handle_get_fields` (main.py lines 363-372). -/
def ServerState.handleGetFields (s : ServerState) (args : Args) (respond : Respond) :
    List String × List NetEvent :=
  match s.odoo_client with
  | none => ([notConnectedMsg], [])
  | some c =>
      match argsIndex args "model" with
      | .error e => (["Get fields failed: " ++ e], [])
      | .ok model =>
          match c.get_fields model respond with
          | (.error e, evs) => (["Get fields failed: " ++ e], evs)
          | (.ok v, evs) =>
              (["Fields for " ++ model.pyStr ++ ": " ++ v.pyStr], evs)

/-- `_handle_count` (main.py lines 374-386).  The function definitions
nested below it in the source (lines 388-472) are dead code: they sit after
its try/except inside its body, are never executed, and would only bind
local names anyway — so `_handle_update_lead_contact`,
`_handle_update_contact`, `_handle_read_group` and `_handle_web_search`
never exist as attributes of `OdooMCPServer`. -/
def ServerState.handleCount (s : ServerState) (args : Args) (respond : Respond) :
    List String × List NetEvent :=
  match s.odoo_client with
  | none => ([notConnectedMsg], [])
  | some c =>
      match argsIndex args "model" with
      | .error e => (["Count failed: " ++ e], [])
      | .ok model =>
          match c.count model (some (argsGetD args "domain" (.vList []))) respond with
          | (.error e, evs) => (["Count failed: " ++ e], evs)
          | (.ok v, evs) =>
              (["Record count for " ++ model.pyStr ++ ": " ++ v.pyStr], evs)

/-- The 13 tool names advertised by `handle_list_tools`
(main.py lines 36-207); exactly these names are also recognized by
`handle_call_tool`. -/
def toolNames : List String :=
  ["odoo_connect", "odoo_search", "odoo_create", "odoo_write", "odoo_unlink",
   "odoo_call", "odoo_get_models", "odoo_get_fields", "odoo_count",
   "odoo_update_lead_contact", "odoo_update_contact", "odoo_read_group",
   "web_search"]

/-- The `AttributeError` message Python raises when `handle_call_tool`
dereferences a handler method that was never bound (see
`ServerState.handleCount`), as caught and rendered by its except clause. -/
def noAttrMsg (handler : String) : String :=
  "Error: \x27OdooMCPServer\x27 object has no attribute \x27" ++ handler ++ "\x27"

/-- `handle_call_tool` (main.py lines 209-242): the name dispatch chain,
wrapped in a try/except that converts any exception into an
`Error: ...` text; unknown names answer `Unknown tool: ...`.  The four
names whose handlers are unbound (dead code, lines 388-472) raise
`AttributeError`, caught here — before any remote call and before any
state change. -/
def handleCallTool (s : ServerState) (env : Env) (name : String) (args : Args)
    (auth : AuthOutcome) (respond : Respond) :
    ServerState × List String × List NetEvent :=
  if name = "odoo_connect" then s.handleConnect env args auth
  else if name = "odoo_search" then
    let r := s.handleSearch args respond; (s, r.1, r.2)
  else if name = "odoo_create" then
    let r := s.handleCreate args respond; (s, r.1, r.2)
  else if name = "odoo_write" then
    let r := s.handleWrite args respond; (s, r.1, r.2)
  else if name = "odoo_unlink" then
    let r := s.handleUnlink args respond; (s, r.1, r.2)
  else if name = "odoo_call" then
    let r := s.handleCall args respond; (s, r.1, r.2)
  else if name = "odoo_get_models" then
    let r := s.handleGetModels args respond; (s, r.1, r.2)
  else if name = "odoo_get_fields" then
    let r := s.handleGetFields args respond; (s, r.1, r.2)
  else if name = "odoo_count" then
    let r := s.handleCount args respond; (s, r.1, r.2)
  else if name = "odoo_update_lead_contact" then
    (s, [noAttrMsg "_handle_update_lead_contact"], [])
  else if name = "odoo_update_contact" then
    (s, [noAttrMsg "_handle_update_contact"], [])
  else if name = "odoo_read_group" then
    (s, [noAttrMsg "_handle_read_group"], [])
  else if name = "web_search" then
    (s, [noAttrMsg "_handle_web_search"], [])
  else (s, ["Unknown tool: " ++ name], [])

/-! ## The HTTP surface (`http_server.py`) -/

/-- The pydantic `ConnectionRequest` (http_server.py lines 30-34): all four
fields are required strings. -/
structure ConnReq where
  url : String
  database : String
  username : String
  password : String

/-- An HTTP response: a success body, or an `HTTPException` with status
code and detail. -/
inductive HttpResp where
  | ok (msg : String)
  | err (status : Nat) (detail : String)

/-- The module-level globals of http_server.py (lines 26-27); same shape as
the MCP server state. -/
def HttpState := ServerState

/-- `POST /connect` (http_server.py lines 106-146).  As in `main.py`, the
global `odoo_client` is assigned the freshly constructed client *before*
`connect()` is awaited.  The `HTTPException(400)` raised for missing
parameters is itself raised inside the `try`, so the `except` clause
re-wraps it as a 500 whose detail embeds its `str()`
(`400: Missing connection parameters...`). -/
def httpConnect (env : Env) (s : HttpState) (req : ConnReq) (auth : AuthOutcome) :
    HttpState × HttpResp × List NetEvent :=
  let url := pyOr (.vStr req.url) env.odoo_url
  let database := pyOr (.vStr req.database) env.odoo_database
  let username := pyOr (.vStr req.username) env.odoo_username
  let password := pyOr (.vStr req.password) env.odoo_password
  if !(url.truthy && database.truthy && username.truthy && password.truthy) then
    (s, .err 500 ("Connection failed: 400: " ++ missingParamsMsg), [])
  else
    let c0 := mkOdooClient url database username password
    match c0.connect auth with
    | (c1, none, evs) =>
        (ServerState.mk (some c1)
           (some [("url", url), ("database", database),
                  ("username", username), ("password", password)]),
         .ok ("Successfully connected to Odoo at " ++ url.pyStr
                ++ " (database: " ++ database.pyStr ++ ")"), evs)
    | (c1, some msg, evs) =>
        (ServerState.mk (some c1) (ServerState.connection_params s),
         .err 500 ("Connection failed: " ++ msg), evs)

/-- `GET /health` (http_server.py lines 98-104): reports
`connected: odoo_client is not None`. -/
structure HealthResponse where
  status : String
  connected : Bool

def healthEndpoint (s : HttpState) : HealthResponse :=
  { status := "healthy", connected := (ServerState.odoo_client s).isSome }

/-- `GET /` (http_server.py lines 77-96): also reports
`connected: odoo_client is not None`. -/
structure RootResponse where
  status : String
  service : String
  version : String
  connected : Bool
  endpoints : List String

def rootEndpoint (s : HttpState) : RootResponse :=
  { status := "ok", service := "Odoo MCP HTTP API Server", version := "0.2.0",
    connected := (ServerState.odoo_client s).isSome,
    endpoints := ["/connect", "/search", "/create", "/write", "/unlink",
                  "/call", "/models", "/fields", "/count"] }

/-- The module-level initial state: `odoo_client = None`,
`connection_params = None`. -/
def initialHttpState : HttpState := ServerState.mk none none

/-- Run a sequence of `POST /connect` requests (the only endpoint that
assigns the `odoo_client` global) from a given state. -/
def runConnects (env : Env) (s : HttpState) :
    List (ConnReq × AuthOutcome) → HttpState
  | [] => s
  | (r, a) :: rest => runConnects env (httpConnect env s r a).1 rest

/-! ## Spec-side definitions

These are written from the specification text, to be compared against the
source-side functions above by the theorems below. -/

/-- Spec side, from the `search_read` row of the operation table: the remote
call must be method `search_read` on the given model with positional
arguments `[domain]` and keyword arguments `fields`, `limit`, with the
documented defaults for omitted parameters. -/
def searchReadCall (c : OdooClient) (model : Value)
    (domain fields limit : Option Value) : RemoteCall :=
  { database := c.database, uid := c.uid, password := c.password,
    model := model, method := .vStr "search_read",
    args := .vList [pyOr (domain.getD .vNull) (.vList [])],
    kwargs := some (.vDict
      [("fields", pyOr (fields.getD .vNull) (.vList [])),
       ("limit", limit.getD (.vInt 100))]) }

/-- Spec side, from the `read_group` row of the operation table: positional
`[domain, fields, groupby]` (empty-list defaults) and keyword arguments
drawn from `limit`, `orderby`, `lazy` with null-valued keys omitted. -/
def readGroupCall (c : OdooClient) (model : Value)
    (domain fields groupby limit orderby lazy : Option Value) : RemoteCall :=
  { database := c.database, uid := c.uid, password := c.password,
    model := model, method := .vStr "read_group",
    args := .vList [pyOr (domain.getD .vNull) (.vList []),
                    pyOr (fields.getD .vNull) (.vList []),
                    pyOr (groupby.getD .vNull) (.vList [])],
    kwargs := some (.vDict
      (([("limit", limit.getD (.vInt 100)),
         ("orderby", orderby.getD .vNull),
         ("lazy", lazy.getD (.vBool true))]).filter
        (fun kv => !kv.2.isNull))) }

/-- Spec side, from the `get_models` row: a `search_read` on the meta-model
`ir.model` requesting the fields `model`, `name`, `info`. -/
def irModelCall (c : OdooClient) : RemoteCall :=
  { database := c.database, uid := c.uid, password := c.password,
    model := .vStr "ir.model", method := .vStr "search_read",
    args := .vList [.vList []],
    kwargs := some (.vDict
      [("fields", .vList [.vStr "model", .vStr "name", .vStr "info"])]) }

/-- Spec side: a model entry matches a filter when its `model` field is a
string containing the filter case-insensitively. -/
def entryKeep (pat : String) (e : Value) : Bool :=
  match e.dictGet "model" with
  | .ok (.vStr s) => strContainsCI s pat
  | _ => false

/-- Spec side: the parameter check of a connect attempt on the tool surface
(all four credentials truthy after environment fallback). -/
def connectParamsOk (env : Env) (args : Args) : Bool :=
  (pyOr (argsGetD args "url" .vNull) env.odoo_url).truthy
    && (pyOr (argsGetD args "database" .vNull) env.odoo_database).truthy
    && (pyOr (argsGetD args "username" .vNull) env.odoo_username).truthy
    && (pyOr (argsGetD args "password" .vNull) env.odoo_password).truthy

/-- Spec side: a connect attempt on the tool surface succeeds exactly when
the parameters pass validation and the remote authentication returns a
truthy identity. -/
def connectSucceeds (env : Env) (args : Args) (auth : AuthOutcome) : Bool :=
  connectParamsOk env args &&
    (match auth with
     | .ok v => v.truthy
     | .netfail _ => false)

/-- Spec side: the parameter check of `POST /connect` (all four credentials
truthy after environment fallback). -/
def httpParamsOk (env : Env) (req : ConnReq) : Bool :=
  (pyOr (.vStr req.url) env.odoo_url).truthy
    && (pyOr (.vStr req.database) env.odoo_database).truthy
    && (pyOr (.vStr req.username) env.odoo_username).truthy
    && (pyOr (.vStr req.password) env.odoo_password).truthy

/-- Spec side ("status = Connected"): a state where no operation guard
would fire — a client exists and its session id is truthy. -/
def isConnected (s : ServerState) : Bool :=
  match s.odoo_client with
  | none => false
  | some c => c.uid.truthy

/-- Spec side: a state in which no successful connect has occurred — either
no client was ever constructed, or every constructed client failed to
authenticate (its `uid` is falsy). -/
def noSuccessfulConnect (s : ServerState) : Bool := !(isConnected s)

/-! ## Helper lemmas -/

theorem charsContain_nil (l : List Char) : charsContain [] l = true := by
  cases l <;> simp [charsContain, List.isPrefixOf]

theorem strContainsCI_empty (s : String) : strContainsCI s "" = true := by
  simp [strContainsCI, charsContain_nil]

theorem filterByModel_eq (pat : String) (entries : List Value)
    (hwf : ∀ e ∈ entries, ∃ m, e.dictGet "model" = .ok (.vStr m)) :
    filterByModel (.vStr pat) entries = .ok (entries.filter (entryKeep pat)) := by
  induction entries with
  | nil => rfl
  | cons e rest ih =>
      obtain ⟨m, hm⟩ := hwf e (by simp)
      have hrest := ih (fun x hx => hwf x (by simp [hx]))
      by_cases hk : strContainsCI m pat
      all_goals
        simp [filterByModel, Value.asStr, hm, hrest, entryKeep,
              List.filter_cons, hk]

/-! ## Claim theorems -/

/-- C3: a `connect` call with the four credentials supplied (held by the
client) authenticates remotely; a truthy returned identity makes it
succeed with `uid` set to exactly that identity (nonzero when an integer);
a falsy identity makes it fail with the authentication error; a transport
failure makes it fail with the transport error, leaving `uid` unassigned. -/
theorem C3_connect_outcomes (c : OdooClient) (v : Value) (msg : String) :
    (v.truthy = true →
      c.connect (.ok v)
        = ({ c with uid := v }, none,
           [.authenticate c.database c.username c.password]))
    ∧ (v.truthy = false →
      c.connect (.ok v)
        = ({ c with uid := v }, some "Authentication failed",
           [.authenticate c.database c.username c.password]))
    ∧ c.connect (.netfail msg)
        = (c, some msg, [.authenticate c.database c.username c.password])
    ∧ (∀ n : Int, v = .vInt n → v.truthy = true → n ≠ 0) := by
  refine ⟨?_, ?_, rfl, ?_⟩
  · intro h; simp [OdooClient.connect, h]
  · intro h; simp [OdooClient.connect, h]
  · rintro n rfl h hn; subst hn; simp [Value.truthy] at h

/-- Witness for C3: a concrete successful connect stores the returned
identity 7. -/
theorem C3_connect_outcomes_witness :
    OdooClient.connect ⟨.vStr "http://x", .vStr "db", .vStr "u", .vStr "p", .vNull⟩
        (.ok (.vInt 7))
      = (⟨.vStr "http://x", .vStr "db", .vStr "u", .vStr "p", .vInt 7⟩, none,
         [.authenticate (.vStr "db") (.vStr "u") (.vStr "p")]) :=
  (C3_connect_outcomes
      ⟨.vStr "http://x", .vStr "db", .vStr "u", .vStr "p", .vNull⟩
      (.vInt 7) "").1 rfl

/-- C4: while connected, `search_read` issues exactly one remote call of
method `search_read` on the given model with positional arguments
`[domain]` and keyword arguments `fields`, `limit`; an omitted domain and
omitted fields default to the empty list, an omitted limit defaults to 100;
the remote return value (or fault) is passed back unchanged. -/
theorem C4_search_read_shape (c : OdooClient) (model : Value)
    (domain fields limit : Option Value) (respond : Respond)
    (huid : c.uid.truthy = true) :
    c.search_read model domain fields limit respond
      = (respond (searchReadCall c model domain fields limit),
         [.executeKw (searchReadCall c model domain fields limit)])
    ∧ (searchReadCall c model domain fields limit).method = .vStr "search_read"
    ∧ (searchReadCall c model domain fields limit).model = model
    ∧ (domain = none →
        (searchReadCall c model domain fields limit).args = .vList [.vList []])
    ∧ (fields = none → limit = none →
        (searchReadCall c model domain fields limit).kwargs
          = some (.vDict [("fields", .vList []), ("limit", .vInt 100)])) := by
  refine ⟨?_, rfl, rfl, ?_, ?_⟩
  · simp [OdooClient.search_read, searchReadCall, huid]
  · rintro rfl; simp [searchReadCall, pyOr, Value.truthy]
  · rintro rfl rfl; simp [searchReadCall, pyOr, Value.truthy]

/-- Witness for C4: concrete connected client, all optional parameters
omitted. -/
theorem C4_search_read_shape_witness :
    OdooClient.search_read ⟨.vStr "http://x", .vStr "db", .vStr "u", .vStr "p", .vInt 2⟩
        (.vStr "res.partner") none none none (fun _ => .ok (.vList []))
      = (.ok (.vList []),
         [.executeKw (searchReadCall
            ⟨.vStr "http://x", .vStr "db", .vStr "u", .vStr "p", .vInt 2⟩
            (.vStr "res.partner") none none none)]) :=
  (C4_search_read_shape
      ⟨.vStr "http://x", .vStr "db", .vStr "u", .vStr "p", .vInt 2⟩
      (.vStr "res.partner") none none none (fun _ => .ok (.vList [])) rfl).1

/-- C6: while connected, `read_group` issues exactly one remote call of
method `read_group` with positional arguments `[domain, fields, groupby]`
(each defaulting to the empty list) and keyword arguments drawn from
`limit`, `orderby`, `lazy` with every null-valued key omitted; by default
`limit = 100` and `lazy = True` are kept and the omitted `orderby` is the
only dropped key. -/
theorem C6_read_group_shape (c : OdooClient) (model : Value)
    (domain fields groupby limit orderby lazy : Option Value) (respond : Respond)
    (huid : c.uid.truthy = true) :
    c.read_group model domain fields groupby limit orderby lazy respond
      = (respond (readGroupCall c model domain fields groupby limit orderby lazy),
         [.executeKw (readGroupCall c model domain fields groupby limit orderby lazy)])
    ∧ (readGroupCall c model domain fields groupby limit orderby lazy).method
        = .vStr "read_group"
    ∧ (domain = none → fields = none → groupby = none →
        (readGroupCall c model domain fields groupby limit orderby lazy).args
          = .vList [.vList [], .vList [], .vList []])
    ∧ (limit = none → orderby = none → lazy = none →
        (readGroupCall c model domain fields groupby limit orderby lazy).kwargs
          = some (.vDict [("limit", .vInt 100), ("lazy", .vBool true)]))
    ∧ (∀ l, (readGroupCall c model domain fields groupby limit orderby lazy).kwargs
          = some (.vDict l) → ∀ p ∈ l, p.2.isNull = false) := by
  refine ⟨?_, rfl, ?_, ?_, ?_⟩
  · simp [OdooClient.read_group, readGroupCall, huid]
  · rintro rfl rfl rfl; simp [readGroupCall, pyOr, Value.truthy]
  · rintro rfl rfl rfl; rfl
  · intro l hl p hp
    simp only [readGroupCall, Option.some.injEq, Value.vDict.injEq] at hl
    subst hl
    simp only [List.mem_filter] at hp
    simpa using hp.2

/-- Witness for C6: concrete connected client, all optional parameters
omitted — the issued keyword arguments are exactly `limit = 100`,
`lazy = True`. -/
theorem C6_read_group_shape_witness :
    OdooClient.read_group ⟨.vStr "http://x", .vStr "db", .vStr "u", .vStr "p", .vInt 2⟩
        (.vStr "crm.lead") none none none none none none (fun _ => .ok (.vList []))
      = (.ok (.vList []),
         [.executeKw (readGroupCall
            ⟨.vStr "http://x", .vStr "db", .vStr "u", .vStr "p", .vInt 2⟩
            (.vStr "crm.lead") none none none none none none)]) :=
  (C6_read_group_shape
      ⟨.vStr "http://x", .vStr "db", .vStr "u", .vStr "p", .vInt 2⟩
      (.vStr "crm.lead") none none none none none none
      (fun _ => .ok (.vList [])) rfl).1

/-- C5: for any list of model entries the remote meta-model query returns,
`get_models` with a filter string returns exactly the sub-list (in original
order, hence a sublist and exactly the members satisfying the predicate) of
entries whose model name contains the filter case-insensitively; with no
filter it returns the list unchanged; the meta-model query asks `ir.model`
for the fields `model`, `name`, `info`. -/
theorem C5_get_models_filter (c : OdooClient) (entries : List Value)
    (pat : String) (respond : Respond)
    (huid : c.uid.truthy = true)
    (hresp : respond (irModelCall c) = .ok (.vList entries))
    (hwf : ∀ e ∈ entries, ∃ m, e.dictGet "model" = .ok (.vStr m)) :
    c.get_models (.vStr pat) respond
        = (.ok (.vList (entries.filter (entryKeep pat))),
           [.executeKw (irModelCall c)])
    ∧ c.get_models .vNull respond
        = (.ok (.vList entries), [.executeKw (irModelCall c)])
    ∧ List.Sublist (entries.filter (entryKeep pat)) entries
    ∧ (∀ e, e ∈ entries.filter (entryKeep pat)
          ↔ e ∈ entries ∧ entryKeep pat e = true)
    ∧ (irModelCall c).model = .vStr "ir.model"
    ∧ (irModelCall c).kwargs
        = some (.vDict
            [("fields", .vList [.vStr "model", .vStr "name", .vStr "info"])]) := by
  have hfilter := filterByModel_eq pat entries hwf
  unfold irModelCall at hresp
  refine ⟨?_, ?_, List.filter_sublist _, ?_, rfl, rfl⟩
  · by_cases hpat : pat = ""
    · subst hpat
      have hall : entries.filter (entryKeep "") = entries :=
        List.filter_eq_self.mpr (fun e he => by
          obtain ⟨m, hm⟩ := hwf e he
          simp [entryKeep, hm, strContainsCI_empty])
      simp only [OdooClient.get_models, irModelCall, huid, hresp]
      simp [Value.truthy, hall, String.isEmpty_iff, Value.asList, hfilter]
    · have hemp : pat.isEmpty = false :=
        Bool.eq_false_iff.mpr (fun hx => hpat ((String.isEmpty_iff pat).mp hx))
      have htruthy : (Value.vStr pat).truthy = true := by
        simp [Value.truthy, hemp]
      simp only [OdooClient.get_models, irModelCall, huid, hresp]
      simp [htruthy, Value.asList, hfilter]
  · simp only [OdooClient.get_models, irModelCall, huid, hresp]
    simp [Value.truthy]
  · intro e; simp [List.mem_filter]

/-- Witness for C5: a concrete connected client and two well-formed model
entries; the filter `PARTNER` keeps exactly the `res.partner` entry. -/
theorem C5_get_models_filter_witness :
    OdooClient.get_models ⟨.vStr "http://x", .vStr "db", .vStr "u", .vStr "p", .vInt 2⟩
        (.vStr "PARTNER")
        (fun _ => .ok (.vList
          [.vDict [("model", .vStr "res.partner"), ("name", .vStr "Contact"),
                   ("info", .vNull)],
           .vDict [("model", .vStr "sale.order"), ("name", .vStr "Sales Order"),
                   ("info", .vNull)]]))
      = (.ok (.vList
          [.vDict [("model", .vStr "res.partner"), ("name", .vStr "Contact"),
                   ("info", .vNull)]]),
         [.executeKw (irModelCall
            ⟨.vStr "http://x", .vStr "db", .vStr "u", .vStr "p", .vInt 2⟩)]) := by
  have h := (C5_get_models_filter
      ⟨.vStr "http://x", .vStr "db", .vStr "u", .vStr "p", .vInt 2⟩
      [.vDict [("model", .vStr "res.partner"), ("name", .vStr "Contact"),
               ("info", .vNull)],
       .vDict [("model", .vStr "sale.order"), ("name", .vStr "Sales Order"),
               ("info", .vNull)]]
      "PARTNER"
      (fun _ => .ok (.vList
        [.vDict [("model", .vStr "res.partner"), ("name", .vStr "Contact"),
                 ("info", .vNull)],
         .vDict [("model", .vStr "sale.order"), ("name", .vStr "Sales Order"),
                 ("info", .vNull)]]))
      rfl rfl
      (by
        intro e he
        simp only [List.mem_cons, List.not_mem_nil, or_false] at he
        rcases he with rfl | rfl
        · exact ⟨"res.partner", rfl⟩
        · exact ⟨"sale.order", rfl⟩)).1
  exact h

/-- C7: dispatching an operation name outside the fixed registry returns an
`Unknown tool` text result (not an exception), performs no remote call and
leaves the connection state unchanged. -/
theorem C7_unknown_tool (s : ServerState) (env : Env) (name : String)
    (args : Args) (auth : AuthOutcome) (respond : Respond)
    (h : name ∉ toolNames) :
    handleCallTool s env name args auth respond
      = (s, ["Unknown tool: " ++ name], []) := by
  simp only [toolNames, List.mem_cons, List.not_mem_nil, or_false,
    not_or] at h
  obtain ⟨h1, h2, h3, h4, h5, h6, h7, h8, h9, h10, h11, h12, h13⟩ := h
  simp [handleCallTool, h1, h2, h3, h4, h5, h6, h7, h8, h9, h10, h11, h12, h13]

/-- Witness for C7: a concrete unregistered name. -/
theorem C7_unknown_tool_witness :
    handleCallTool (ServerState.mk none none) ⟨.vNull, .vNull, .vNull, .vNull⟩
        "odoo_disconnect" [] (.netfail "") (fun _ => .ok .vNull)
      = (ServerState.mk none none, ["Unknown tool: odoo_disconnect"], []) :=
  C7_unknown_tool (ServerState.mk none none) ⟨.vNull, .vNull, .vNull, .vNull⟩
    "odoo_disconnect" [] (.netfail "") (fun _ => .ok .vNull) (by decide)

/-- C10: the four advertised tools whose handler methods are never bound
(their definitions are dead code nested inside `_handle_count`) always
return the caught `AttributeError` text, perform no remote call and leave
the connection state unchanged — for every state, argument map and oracle. -/
theorem C10_dead_handlers (s : ServerState) (env : Env) (args : Args)
    (auth : AuthOutcome) (respond : Respond) :
    handleCallTool s env "odoo_update_lead_contact" args auth respond
      = (s, [noAttrMsg "_handle_update_lead_contact"], [])
    ∧ handleCallTool s env "odoo_update_contact" args auth respond
      = (s, [noAttrMsg "_handle_update_contact"], [])
    ∧ handleCallTool s env "odoo_read_group" args auth respond
      = (s, [noAttrMsg "_handle_read_group"], [])
    ∧ handleCallTool s env "web_search" args auth respond
      = (s, [noAttrMsg "_handle_web_search"], []) :=
  ⟨rfl, rfl, rfl, rfl⟩

/-- C1 (code bug): the spec requires every operation except connect to
answer a NotConnected-style result before any successful connect, but
dispatching the advertised operation `odoo_read_group` on the initial
(never-connected) state answers the `AttributeError` text of its unbound
handler instead of the NotConnected message — while still performing zero
remote I/O and leaving the state unchanged. -/
theorem C1_read_group_guard_divergence :
    handleCallTool (ServerState.mk none none) ⟨.vNull, .vNull, .vNull, .vNull⟩
        "odoo_read_group" [] (.netfail "") (fun _ => .ok .vNull)
      = (ServerState.mk none none, [noAttrMsg "_handle_read_group"], [])
    ∧ noAttrMsg "_handle_read_group" ≠ notConnectedMsg :=
  ⟨rfl, by decide⟩

/-- C2 (counterexample): a failed reconnect does not leave the state it
found.  Starting Connected with session id 5, a connect call with valid
parameters whose remote authentication returns `False` is a failed call,
yet the state afterward differs from the state before: the previous client
has been replaced. -/
theorem C2_counterexample :
    isConnected (ServerState.mk
        (some ⟨.vStr "http://x", .vStr "db", .vStr "u", .vStr "p", .vInt 5⟩) none) = true
    ∧ connectSucceeds ⟨.vNull, .vNull, .vNull, .vNull⟩
        [("url", .vStr "http://x"), ("database", .vStr "db"),
         ("username", .vStr "u"), ("password", .vStr "p")]
        (.ok (.vBool false)) = false
    ∧ (ServerState.handleConnect
        (ServerState.mk
          (some ⟨.vStr "http://x", .vStr "db", .vStr "u", .vStr "p", .vInt 5⟩) none)
        ⟨.vNull, .vNull, .vNull, .vNull⟩
        [("url", .vStr "http://x"), ("database", .vStr "db"),
         ("username", .vStr "u"), ("password", .vStr "p")]
        (.ok (.vBool false))).1
      ≠ ServerState.mk
          (some ⟨.vStr "http://x", .vStr "db", .vStr "u", .vStr "p", .vInt 5⟩) none := by
  refine ⟨rfl, rfl, ?_⟩
  intro h
  have h2 : some (Value.vBool false) = some (Value.vInt 5) :=
    congrArg (fun st : ServerState => Option.map OdooClient.uid st.odoo_client) h
  simp at h2

/-- C2 (amended): after any failed connect call on the tool surface,
`connection_params` is unchanged, and `odoo_client` is either exactly the
previous one (when parameter validation failed before a client was
constructed) or a freshly constructed client whose `uid` is falsy — i.e.
the system is not left Connected with its previous session identity. -/
theorem C2_failed_connect_state (s : ServerState) (env : Env) (args : Args)
    (auth : AuthOutcome)
    (h : connectSucceeds env args auth = false) :
    (s.handleConnect env args auth).1.connection_params = s.connection_params
    ∧ ((s.handleConnect env args auth).1.odoo_client = s.odoo_client
       ∨ ∃ c, (s.handleConnect env args auth).1.odoo_client = some c
              ∧ c.uid.truthy = false) := by
  simp only [ServerState.handleConnect]
  split
  · exact ⟨rfl, Or.inl rfl⟩
  · next hcond =>
      have hp : connectParamsOk env args = true := by
        unfold connectParamsOk
        simpa using hcond
      split
      · next c1 evs heq =>
          exfalso
          cases auth with
          | netfail msg => simp [OdooClient.connect] at heq
          | ok v =>
              have hv : v.truthy = false := by
                simpa [connectSucceeds, hp] using h
              simp [OdooClient.connect, hv] at heq
      · next c1 msg evs heq =>
          refine ⟨rfl, Or.inr ⟨c1, rfl, ?_⟩⟩
          cases auth with
          | netfail m =>
              simp [OdooClient.connect] at heq
              obtain ⟨hc, -, -⟩ := heq
              subst hc
              simp [mkOdooClient, Value.truthy]
          | ok v =>
              have hv : v.truthy = false := by
                simpa [connectSucceeds, hp] using h
              simp [OdooClient.connect, hv] at heq
              obtain ⟨hc, -, -⟩ := heq
              subst hc
              simpa using hv

/-- Witness for C2 (amended): the concrete failed reconnect of the
counterexample leaves `connection_params` unchanged and an unauthenticated
client in place. -/
theorem C2_failed_connect_state_witness :
    ((ServerState.mk
        (some ⟨.vStr "http://x", .vStr "db", .vStr "u", .vStr "p", .vInt 5⟩) none).handleConnect
        ⟨.vNull, .vNull, .vNull, .vNull⟩
        [("url", .vStr "http://x"), ("database", .vStr "db"),
         ("username", .vStr "u"), ("password", .vStr "p")]
        (.ok (.vBool false))).1.connection_params
      = (ServerState.mk
          (some ⟨.vStr "http://x", .vStr "db", .vStr "u", .vStr "p", .vInt 5⟩) none).connection_params
    ∧ (((ServerState.mk
        (some ⟨.vStr "http://x", .vStr "db", .vStr "u", .vStr "p", .vInt 5⟩) none).handleConnect
        ⟨.vNull, .vNull, .vNull, .vNull⟩
        [("url", .vStr "http://x"), ("database", .vStr "db"),
         ("username", .vStr "u"), ("password", .vStr "p")]
        (.ok (.vBool false))).1.odoo_client
        = (ServerState.mk
            (some ⟨.vStr "http://x", .vStr "db", .vStr "u", .vStr "p", .vInt 5⟩) none).odoo_client
       ∨ ∃ c, ((ServerState.mk
          (some ⟨.vStr "http://x", .vStr "db", .vStr "u", .vStr "p", .vInt 5⟩) none).handleConnect
          ⟨.vNull, .vNull, .vNull, .vNull⟩
          [("url", .vStr "http://x"), ("database", .vStr "db"),
           ("username", .vStr "u"), ("password", .vStr "p")]
          (.ok (.vBool false))).1.odoo_client = some c
            ∧ c.uid.truthy = false) :=
  C2_failed_connect_state
    (ServerState.mk
      (some ⟨.vStr "http://x", .vStr "db", .vStr "u", .vStr "p", .vInt 5⟩) none)
    ⟨.vNull, .vNull, .vNull, .vNull⟩
    [("url", .vStr "http://x"), ("database", .vStr "db"),
     ("username", .vStr "u"), ("password", .vStr "p")]
    (.ok (.vBool false)) rfl

theorem handleConnect_one_text (s : ServerState) (env : Env) (args : Args)
    (auth : AuthOutcome) :
    ∃ t, (s.handleConnect env args auth).2.1 = [t] := by
  unfold ServerState.handleConnect
  dsimp only
  repeat' split
  all_goals exact ⟨_, rfl⟩

theorem handleSearch_one_text (s : ServerState) (args : Args) (respond : Respond) :
    ∃ t, (s.handleSearch args respond).1 = [t] := by
  unfold ServerState.handleSearch
  repeat' split
  all_goals exact ⟨_, rfl⟩

theorem handleCreate_one_text (s : ServerState) (args : Args) (respond : Respond) :
    ∃ t, (s.handleCreate args respond).1 = [t] := by
  unfold ServerState.handleCreate
  repeat' split
  all_goals exact ⟨_, rfl⟩

theorem handleWrite_one_text (s : ServerState) (args : Args) (respond : Respond) :
    ∃ t, (s.handleWrite args respond).1 = [t] := by
  unfold ServerState.handleWrite
  repeat' split
  all_goals exact ⟨_, rfl⟩

theorem handleUnlink_one_text (s : ServerState) (args : Args) (respond : Respond) :
    ∃ t, (s.handleUnlink args respond).1 = [t] := by
  unfold ServerState.handleUnlink
  repeat' split
  all_goals exact ⟨_, rfl⟩

theorem handleCall_one_text (s : ServerState) (args : Args) (respond : Respond) :
    ∃ t, (s.handleCall args respond).1 = [t] := by
  unfold ServerState.handleCall
  repeat' split
  all_goals exact ⟨_, rfl⟩

theorem handleGetModels_one_text (s : ServerState) (args : Args) (respond : Respond) :
    ∃ t, (s.handleGetModels args respond).1 = [t] := by
  unfold ServerState.handleGetModels
  repeat' split
  all_goals exact ⟨_, rfl⟩

theorem handleGetFields_one_text (s : ServerState) (args : Args) (respond : Respond) :
    ∃ t, (s.handleGetFields args respond).1 = [t] := by
  unfold ServerState.handleGetFields
  repeat' split
  all_goals exact ⟨_, rfl⟩

theorem handleCount_one_text (s : ServerState) (args : Args) (respond : Respond) :
    ∃ t, (s.handleCount args respond).1 = [t] := by
  unfold ServerState.handleCount
  repeat' split
  all_goals exact ⟨_, rfl⟩

/-- C8: the tool dispatcher is total — for every tool name, argument map,
state and remote oracle it returns exactly one text block and never
propagates an exception (every failure path, including unbound handlers and
remote faults, is converted into a text result). -/
theorem C8_dispatch_total (s : ServerState) (env : Env) (name : String)
    (args : Args) (auth : AuthOutcome) (respond : Respond) :
    ∃ t, (handleCallTool s env name args auth respond).2.1 = [t] := by
  unfold handleCallTool
  by_cases h1 : name = "odoo_connect"
  · rw [if_pos h1]; exact handleConnect_one_text s env args auth
  rw [if_neg h1]
  by_cases h2 : name = "odoo_search"
  · rw [if_pos h2]; exact handleSearch_one_text s args respond
  rw [if_neg h2]
  by_cases h3 : name = "odoo_create"
  · rw [if_pos h3]; exact handleCreate_one_text s args respond
  rw [if_neg h3]
  by_cases h4 : name = "odoo_write"
  · rw [if_pos h4]; exact handleWrite_one_text s args respond
  rw [if_neg h4]
  by_cases h5 : name = "odoo_unlink"
  · rw [if_pos h5]; exact handleUnlink_one_text s args respond
  rw [if_neg h5]
  by_cases h6 : name = "odoo_call"
  · rw [if_pos h6]; exact handleCall_one_text s args respond
  rw [if_neg h6]
  by_cases h7 : name = "odoo_get_models"
  · rw [if_pos h7]; exact handleGetModels_one_text s args respond
  rw [if_neg h7]
  by_cases h8 : name = "odoo_get_fields"
  · rw [if_pos h8]; exact handleGetFields_one_text s args respond
  rw [if_neg h8]
  by_cases h9 : name = "odoo_count"
  · rw [if_pos h9]; exact handleCount_one_text s args respond
  rw [if_neg h9]
  by_cases h10 : name = "odoo_update_lead_contact"
  · rw [if_pos h10]; exact ⟨_, rfl⟩
  rw [if_neg h10]
  by_cases h11 : name = "odoo_update_contact"
  · rw [if_pos h11]; exact ⟨_, rfl⟩
  rw [if_neg h11]
  by_cases h12 : name = "odoo_read_group"
  · rw [if_pos h12]; exact ⟨_, rfl⟩
  rw [if_neg h12]
  by_cases h13 : name = "web_search"
  · rw [if_pos h13]; exact ⟨_, rfl⟩
  rw [if_neg h13]
  exact ⟨_, rfl⟩

/-- C9 (counterexample): `POST /connect` with valid parameters whose remote
authentication returns `False` answers a 500 error — no successful connect
has been performed — yet `GET /health` afterwards reports
`connected = true`, because the endpoint only checks that a client object
was constructed. -/
theorem C9_counterexample :
    (httpConnect ⟨.vNull, .vNull, .vNull, .vNull⟩ initialHttpState
        ⟨"http://x", "db", "u", "p"⟩ (.ok (.vBool false))).2.1
      = .err 500 "Connection failed: Authentication failed"
    ∧ (healthEndpoint (httpConnect ⟨.vNull, .vNull, .vNull, .vNull⟩ initialHttpState
        ⟨"http://x", "db", "u", "p"⟩ (.ok (.vBool false))).1).connected = true :=
  ⟨rfl, rfl⟩

theorem httpConnect_isSome (env : Env) (s : HttpState) (req : ConnReq)
    (auth : AuthOutcome) :
    (ServerState.odoo_client (httpConnect env s req auth).1).isSome
      = ((ServerState.odoo_client s).isSome || httpParamsOk env req) := by
  unfold httpConnect
  dsimp only
  split
  · next hcond =>
      have hp : httpParamsOk env req = false := by
        unfold httpParamsOk
        simpa only [Bool.not_eq_true'] using hcond
      rw [hp]
      simp
  · next hcond =>
      have hp : httpParamsOk env req = true := by
        unfold httpParamsOk
        simpa only [Bool.not_eq_true', Bool.not_eq_false] using hcond
      rw [hp]
      split <;> simp

theorem runConnects_isSome (env : Env) (hist : List (ConnReq × AuthOutcome)) :
    ∀ s : HttpState,
      (ServerState.odoo_client (runConnects env s hist)).isSome
        = ((ServerState.odoo_client s).isSome
            || hist.any (fun p => httpParamsOk env p.1)) := by
  induction hist with
  | nil => intro s; simp [runConnects]
  | cons p rest ih =>
      intro s
      cases p with
      | mk r a =>
          simp [runConnects, ih, httpConnect_isSome, Bool.or_assoc]

/-- C9 (amended): the `connected` field of `GET /health` and `GET /` is
true exactly when some connect request passing parameter validation has
been processed since startup — i.e. when a client object was constructed —
regardless of whether any remote authentication ever succeeded. -/
theorem C9_connected_field (env : Env) (hist : List (ConnReq × AuthOutcome)) :
    (healthEndpoint (runConnects env initialHttpState hist)).connected
        = hist.any (fun p => httpParamsOk env p.1)
    ∧ (rootEndpoint (runConnects env initialHttpState hist)).connected
        = hist.any (fun p => httpParamsOk env p.1) := by
  have h := runConnects_isSome env hist initialHttpState
  simp only [initialHttpState, Option.isSome_none, Bool.false_or] at h
  exact ⟨h, h⟩

end OdooMCP
